import Mathlib

/-!
Shallow embedding of the BSP-tree program in `src/main.rs` (pboyer/rust-bsp).

The Rust code computes over `f64`; this development models scalars as exact
rationals `ℚ`.  Every concrete input used in counterexamples and witnesses is
chosen to be dyadic and small enough that the `f64` evaluation of the modelled
expressions is exact, so the rational model and the floating-point program
agree on those inputs.  `f64` division by an exactly-zero denominator yields
`inf`/`NaN` in Rust, and the subsequent range test `t >= 0.0 && t <= 1.0` is
then false; the model reflects that by an explicit zero-denominator branch
returning `none`.  Rust panics (out-of-bounds indexing, `usize` underflow) are
modelled by `Option`, `none` standing for the panic.

The hand-written `PartialEq::eq` for `PointPlaneSide` diverges (its body
`self == other` resolves through the reference `PartialEq` instance back to
itself), so every `==` on point classifications in the program never returns.
That comparison is modelled by the fuel-indexed `pointPlaneSideEqFuel`, which
yields `none` — "did not return within the budget" — for every fuel, and the
split loop, the partition and the builder thread it faithfully: any execution
path of the source that reaches such a comparison is `none` in the model.
-/

namespace RustBsp

/-- The `Vec3` struct of `src/main.rs` (three `f64` coordinates, modelled
over `ℚ`). -/
structure Vec3 where
  x : ℚ
  y : ℚ
  z : ℚ
deriving DecidableEq, Repr

/-- `Vec3::sub` from `src/main.rs`. -/
def Vec3.sub (s other : Vec3) : Vec3 :=
  ⟨s.x - other.x, s.y - other.y, s.z - other.z⟩

/-- `Vec3::cross` from `src/main.rs`. -/
def Vec3.cross (s other : Vec3) : Vec3 :=
  ⟨s.y * other.z - s.z * other.y,
   s.z * other.x - s.x * other.z,
   s.x * other.y - s.y * other.x⟩

/-- `Vec3::dot` from `src/main.rs`. -/
def Vec3.dot (s other : Vec3) : ℚ :=
  s.x * other.x + s.y * other.y + s.z * other.z

/-- `Vec3::lerp` from `src/main.rs`: `(1-t)*self + t*other` componentwise. -/
def Vec3.lerp (s other : Vec3) (t : ℚ) : Vec3 :=
  ⟨(1 - t) * s.x + t * other.x,
   (1 - t) * s.y + t * other.y,
   (1 - t) * s.z + t * other.z⟩

/-- `Vec3::scale` from `src/main.rs`. -/
def Vec3.scale (s : Vec3) (k : ℚ) : Vec3 :=
  ⟨s.x * k, s.y * k, s.z * k⟩

/-- `Vec3::len` from `src/main.rs` is `sqrt(dot(self,self))`.  Exact rationals
have no square root, so the `f64` `sqrt` is supplied as an oracle parameter;
none of the claims settled here depends on its value. -/
def Vec3.len (sqrt : ℚ → ℚ) (s : Vec3) : ℚ :=
  sqrt (s.dot s)

/-- `Vec3::normalized` from `src/main.rs`: `scale(1/len)`, with the same
`sqrt` oracle as `Vec3.len`. -/
def Vec3.normalized (sqrt : ℚ → ℚ) (s : Vec3) : Vec3 :=
  s.scale (1 / s.len sqrt)

/-- The `BSPPlane` struct of `src/main.rs`: normal `n` and offset `d`. -/
structure BSPPlane where
  n : Vec3
  d : ℚ
deriving DecidableEq, Repr

/-- The `BSPPolygon` struct of `src/main.rs`: a cached plane and the vertex
ring. -/
structure BSPPolygon where
  plane : BSPPlane
  vertices : List Vec3
deriving DecidableEq, Repr

/-- The `PointPlaneSide` enum of `src/main.rs` (declaration order
`COPLANAR, FRONT, BACK`). -/
inductive PointPlaneSide where
  | COPLANAR
  | FRONT
  | BACK
deriving DecidableEq, Repr

/-- The `PolygonPlaneSide` enum of `src/main.rs`. -/
inductive PolygonPlaneSide where
  | FRONT
  | BACK
  | SPANNING
  | COPLANAR
deriving DecidableEq, Repr

/-- The `BSPNode` enum of `src/main.rs`; the fields of `InnerBSPNode`
(`plane`, `front`, `back`, `polygons`) are inlined into the `Node`
constructor. -/
inductive BSPNode where
  | Node (plane : BSPPlane) (front : BSPNode) (back : BSPNode)
      (polygons : List BSPPolygon)
  | Leaf

/-- `PLANE_THICKNESS_EPS = 1e-6` from `src/main.rs`. -/
def PLANE_THICKNESS_EPS : ℚ := 1 / 1000000

/-- `classify_point_to_plane` from `src/main.rs`:
`dist = dot(n,p) - d`; `FRONT` if `dist > eps`, `BACK` if `dist < -eps`,
else `COPLANAR`. -/
def classify_point_to_plane (plane : BSPPlane) (p : Vec3) : PointPlaneSide :=
  let dist := plane.n.dot p - plane.d
  if dist > PLANE_THICKNESS_EPS then PointPlaneSide.FRONT
  else if dist < -PLANE_THICKNESS_EPS then PointPlaneSide.BACK
  else PointPlaneSide.COPLANAR

/-- The hand-written `impl PartialEq for PointPlaneSide` in `src/main.rs`
(lines 164-168).  Its body is `self == other` on the two references, which
resolves through the reference `PartialEq` instance back to this very `eq`
on the same operands, so each call only ever makes another identical call.
The self-call is modelled with explicit fuel; `none` models the call that
never returns (stack overflow in the running program). -/
def pointPlaneSideEqFuel : Nat → PointPlaneSide → PointPlaneSide → Option Bool
  | 0, _, _ => none
  | n + 1, a, b => pointPlaneSideEqFuel n a b

/-- The loop body of `classify_polygon_by_plane` from `src/main.rs`, carrying
the running `front_count`/`back_count` and returning `SPANNING` as soon as
both are nonzero (checked after each vertex, as in the source).  This loop
dispatches on `classify_point_to_plane` with a `match`, not with `==`, so it
terminates. -/
def classify_go (plane : BSPPlane) : Nat → Nat → List Vec3 → PolygonPlaneSide
  | fc, bc, [] =>
      if fc ≠ 0 then PolygonPlaneSide.FRONT
      else if bc ≠ 0 then PolygonPlaneSide.BACK
      else PolygonPlaneSide.COPLANAR
  | fc, bc, p :: rest =>
      let counts :=
        match classify_point_to_plane plane p with
        | PointPlaneSide.FRONT => (fc + 1, bc)
        | PointPlaneSide.BACK => (fc, bc + 1)
        | PointPlaneSide.COPLANAR => (fc, bc)
      if counts.1 ≠ 0 ∧ counts.2 ≠ 0 then PolygonPlaneSide.SPANNING
      else classify_go plane counts.1 counts.2 rest

/-- `classify_polygon_by_plane` from `src/main.rs`. -/
def classify_polygon_by_plane (plane : BSPPlane) (polygon : BSPPolygon) :
    PolygonPlaneSide :=
  classify_go plane 0 0 polygon.vertices

/-- `bsp_plane_by_three_points` from `src/main.rs`, with the `f64` square
root of `normalized` passed through as an oracle. -/
def bsp_plane_by_three_points (sqrt : ℚ → ℚ) (a b c : Vec3) : BSPPlane :=
  let d0 := b.sub a
  let d1 := c.sub a
  let n := (d1.cross d0).normalized sqrt
  let d := a.dot n
  ⟨n, d⟩

/-- `bsp_polygon_by_vertices` from `src/main.rs`.  The source indexes
`vertices[0]`, `vertices[1]`, `vertices[2]`; a list of fewer than three
vertices panics at the first out-of-bounds access, modelled by `none`. -/
def bsp_polygon_by_vertices (sqrt : ℚ → ℚ) (vertices : List Vec3) :
    Option BSPPolygon :=
  match vertices[0]?, vertices[1]?, vertices[2]? with
  | some v0, some v1, some v2 =>
      some ⟨bsp_plane_by_three_points sqrt v0 v1 v2, vertices⟩
  | _, _, _ => none

/-- The read `points[points.len() - 1]` at the top of `split_bsp_polygon`
(`src/main.rs:188`) — the first operation of that function, executed before
the loop and before any `==` comparison.  On an empty ring `len() - 1`
underflows `usize` and the access panics either way, modelled by `none`
(Nat subtraction gives index `0`, out of bounds for the empty list); on a
non-empty ring the access is the last vertex. -/
def split_last_vertex_access (polygon : BSPPolygon) : Option Vec3 :=
  polygon.vertices[polygon.vertices.length - 1]?

/-- `intersect_segment_plane` from `src/main.rs`:
`t = (d - dot(n,a)) / dot(n, b-a)`; `Some(lerp(a,b,t))` when
`0 ≤ t ≤ 1`, `None` otherwise.  When the denominator is exactly zero the
`f64` quotient is `NaN` or `±inf`, the range test is false and the source
returns `None`; the model makes that branch explicit. -/
def intersect_segment_plane (a b : Vec3) (plane : BSPPlane) : Option Vec3 :=
  let ab := b.sub a
  let den := plane.n.dot ab
  if den = 0 then none
  else
    let t := (plane.d - plane.n.dot a) / den
    if 0 ≤ t ∧ t ≤ 1 then some (a.lerp b t) else none

/-- The loop of `split_bsp_polygon` from `src/main.rs`, walking the vertex
ring with the previous vertex `a` and accumulating `front_verts` and
`back_verts` (pushes append at the end, as `Vec::push` does; the running
`a_side` always equals `classify_point_to_plane` of the previous vertex and
is recomputed here).  Every `==` of the source's
`if b_side == FRONT / else if b_side == BACK / else` chain and of the
nested `a_side` tests is the hand-written divergent `eq`, modelled by
`pointPlaneSideEqFuel`: a comparison that does not return within the fuel
budget makes the whole loop `none`.  The `some` arms transcribe the
source's continuations for the hypothetical case that a comparison did
return; they are unreachable because `pointPlaneSideEqFuel` is `none` for
every fuel. -/
def splitGo (eqFuel : Nat) (plane : BSPPlane) :
    Vec3 → List Vec3 × List Vec3 → List Vec3 →
      Option (List Vec3 × List Vec3)
  | _, acc, [] => some acc
  | a, (fv, bv), b :: rest =>
      let bSide := classify_point_to_plane plane b
      let aSide := classify_point_to_plane plane a
      match pointPlaneSideEqFuel eqFuel bSide PointPlaneSide.FRONT with
      | none => none
      | some true =>
          match pointPlaneSideEqFuel eqFuel aSide PointPlaneSide.BACK with
          | none => none
          | some isB =>
              let withInt :=
                if isB then
                  match intersect_segment_plane b a plane with
                  | some i => (fv ++ [i], bv ++ [i])
                  | none => (fv, bv)
                else (fv, bv)
              splitGo eqFuel plane b (withInt.1 ++ [b], withInt.2) rest
      | some false =>
          match pointPlaneSideEqFuel eqFuel bSide PointPlaneSide.BACK with
          | none => none
          | some true =>
              match pointPlaneSideEqFuel eqFuel aSide
                  PointPlaneSide.FRONT with
              | none => none
              | some true =>
                  let withInt :=
                    match intersect_segment_plane a b plane with
                    | some i => (fv ++ [i], bv ++ [i])
                    | none => (fv, bv)
                  splitGo eqFuel plane b (withInt.1, withInt.2 ++ [b]) rest
              | some false =>
                  match pointPlaneSideEqFuel eqFuel aSide
                      PointPlaneSide.COPLANAR with
                  | none => none
                  | some true =>
                      splitGo eqFuel plane b (fv, bv ++ [a] ++ [b]) rest
                  | some false =>
                      splitGo eqFuel plane b (fv, bv ++ [b]) rest
          | some false =>
              match pointPlaneSideEqFuel eqFuel aSide
                  PointPlaneSide.BACK with
              | none => none
              | some true =>
                  splitGo eqFuel plane b (fv ++ [b], bv ++ [b]) rest
              | some false =>
                  splitGo eqFuel plane b (fv ++ [b], bv) rest

/-- `split_bsp_polygon` from `src/main.rs`.  The source first reads
`points[points.len() - 1]`; on an empty vertex list that is a `usize`
underflow panic, modelled by `none` (see `split_last_vertex_access`).  On
`p :: ps` that last element is `ps.getLastD p` and the loop runs; `none`
from the loop is a `==` comparison that never returned.  The returned
fragments — unreachable in the program as written — are built with the
input polygon's cached `plane`, as in the source. -/
def split_bsp_polygon (eqFuel : Nat) (splitting_plane : BSPPlane)
    (polygon : BSPPolygon) : Option (BSPPolygon × BSPPolygon) :=
  match polygon.vertices with
  | [] => none
  | p :: ps =>
      match splitGo eqFuel splitting_plane (ps.getLastD p) ([], [])
          (p :: ps) with
      | none => none
      | some acc =>
          some (⟨polygon.plane, acc.1⟩, ⟨polygon.plane, acc.2⟩)

/-- The classification loop of `build_bsp_node` from `src/main.rs`:
each polygon goes, in input order, to the front, back or coplanar list
according to its classification against the splitting plane; a `SPANNING`
polygon is split and its front/back fragments pushed instead.  A panic or
a non-returning comparison inside `split_bsp_polygon` propagates as
`none`. -/
def bsp_partition (eqFuel : Nat) (plane : BSPPlane) :
    List BSPPolygon →
      Option (List BSPPolygon × List BSPPolygon × List BSPPolygon)
  | [] => some ([], [], [])
  | q :: qs =>
      match bsp_partition eqFuel plane qs with
      | none => none
      | some (fr, bk, cp) =>
          match classify_polygon_by_plane plane q with
          | PolygonPlaneSide.FRONT => some (q :: fr, bk, cp)
          | PolygonPlaneSide.BACK => some (fr, q :: bk, cp)
          | PolygonPlaneSide.COPLANAR => some (fr, bk, q :: cp)
          | PolygonPlaneSide.SPANNING =>
              match split_bsp_polygon eqFuel plane q with
              | some (f, b) => some (f :: fr, b :: bk, cp)
              | none => none

/-- `build_bsp_node` from `src/main.rs`.  Rust recursion carries no
termination evidence, so the recursion is modelled with fuel; the same
budget bounds the `==` comparisons reached inside `split_bsp_polygon`
(which never return within any budget).  `none` is an execution that does
not complete within the budget — exhausted recursion, a propagated panic,
or a comparison that never returns — never a value the program produces.
Empty input yields `Leaf`; otherwise the splitting plane is the first
polygon's cached plane and the node is built from the partition and the
two recursive calls. -/
def build_bsp_node_fuel : Nat → List BSPPolygon → Option BSPNode
  | 0, _ => none
  | _ + 1, [] => some BSPNode.Leaf
  | fuel + 1, p0 :: rest =>
      let split_plane := p0.plane
      match bsp_partition (fuel + 1) split_plane (p0 :: rest) with
      | none => none
      | some (fr, bk, cp) =>
          match build_bsp_node_fuel fuel fr, build_bsp_node_fuel fuel bk with
          | some fn, some bn => some (BSPNode.Node split_plane fn bn cp)
          | _, _ => none

/-- The two `println!` events of `render_bsp` in `src/main.rs`: `node!` at
an internal node, `leaf!` at a leaf. -/
inductive VisitEvent where
  | node
  | leaf
deriving DecidableEq, Repr

/-- `render_bsp` from `src/main.rs`, modelled as the sequence of print
events: an internal node first emits `node`, then visits front-then-back
when `dot(n,viewer) > d` and back-then-front otherwise; a leaf emits
`leaf`. -/
def render_bsp : BSPNode → Vec3 → List VisitEvent
  | BSPNode.Node plane front back _, viewer =>
      VisitEvent.node ::
        (if plane.n.dot viewer > plane.d then
          render_bsp front viewer ++ render_bsp back viewer
        else
          render_bsp back viewer ++ render_bsp front viewer)
  | BSPNode.Leaf, _ => [VisitEvent.leaf]

/-! Sample inputs used by the concrete theorems: the plane `z = 0`, a
triangle spanning it, a one-vertex polygon, a triangle lying exactly in
its own cached plane, and a perpendicular triangle that spans `z = 0`
while lying exactly in its own cached plane `y = 0`. -/

/-- The plane `z = 0` with unit normal `(0,0,1)`. -/
def zPlane : BSPPlane := ⟨⟨0, 0, 1⟩, 0⟩

/-- A triangle with one vertex in front of `zPlane`, one behind and one on
it, hence classified `SPANNING` against `zPlane`. -/
def spanTri : BSPPolygon := ⟨zPlane, [⟨0, 0, 1⟩, ⟨0, 0, -1⟩, ⟨1, 0, 0⟩]⟩

/-- A polygon with a single vertex lying on `zPlane`. -/
def oneVertPoly : BSPPolygon := ⟨zPlane, [⟨1, 2, 0⟩]⟩

/-- A triangle whose vertices all lie exactly on its cached plane
`zPlane`. -/
def slabTri : BSPPolygon := ⟨zPlane, [⟨0, 0, 0⟩, ⟨1, 0, 0⟩, ⟨0, 1, 0⟩]⟩

/-- A triangle whose vertices all lie exactly on its own cached plane
`y = 0`, but which spans `zPlane` (vertices strictly above, strictly below
and on `z = 0`). -/
def perpTri : BSPPolygon :=
  ⟨⟨⟨0, 1, 0⟩, 0⟩, [⟨0, 0, 1⟩, ⟨0, 0, -1⟩, ⟨1, 0, 0⟩]⟩

/-- The vertex `v` lies within the plane-thickness slab of `pl`. -/
def SlabOK (pl : BSPPlane) (v : Vec3) : Prop :=
  |pl.n.dot v - pl.d| ≤ PLANE_THICKNESS_EPS

/-- Every vertex of every polygon in the list lies within the tolerance
slab of that polygon's own cached plane — the polygon invariant the spec
assumes of builder input (§3). -/
def AllSlab (l : List BSPPolygon) : Prop :=
  ∀ q ∈ l, ∀ v ∈ q.vertices, SlabOK q.plane v

end RustBsp

namespace RustBsp

/-! Helper lemmas: the modelled `==` never returns a value, so the split
loop, the split and any partition that reaches a `SPANNING` polygon are
all `none`; and the concrete vertex ring `(0,0,1), (0,0,-1), (1,0,0)`
classifies `SPANNING` against `zPlane`. -/

theorem pointPlaneSideEqFuel_eq_none (n : Nat) (a b : PointPlaneSide) :
    pointPlaneSideEqFuel n a b = none := by
  induction n with
  | zero => rfl
  | succ n ih => exact ih

theorem splitGo_cons_none (eqFuel : Nat) (plane : BSPPlane) (a : Vec3)
    (fv bv : List Vec3) (b : Vec3) (rest : List Vec3) :
    splitGo eqFuel plane a (fv, bv) (b :: rest) = none := by
  simp [splitGo, pointPlaneSideEqFuel_eq_none]

theorem split_bsp_polygon_eq_none (eqFuel : Nat) (sp : BSPPlane)
    (poly : BSPPolygon) : split_bsp_polygon eqFuel sp poly = none := by
  rcases h : poly.vertices with _ | ⟨p, ps⟩ <;>
    simp [split_bsp_polygon, h, splitGo_cons_none]

theorem classify_go_span_verts :
    classify_go zPlane 0 0 [⟨0, 0, 1⟩, ⟨0, 0, -1⟩, ⟨1, 0, 0⟩] =
      PolygonPlaneSide.SPANNING := by
  have hc1 : classify_point_to_plane zPlane ⟨0, 0, 1⟩ =
      PointPlaneSide.FRONT := by
    norm_num [classify_point_to_plane, Vec3.dot, zPlane, PLANE_THICKNESS_EPS]
  have hc2 : classify_point_to_plane zPlane ⟨0, 0, -1⟩ =
      PointPlaneSide.BACK := by
    norm_num [classify_point_to_plane, Vec3.dot, zPlane, PLANE_THICKNESS_EPS]
  simp [classify_go, hc1, hc2]

/-- C1: the hand-written `PartialEq::eq` for `PointPlaneSide` never
terminates: its body re-invokes itself on the same operands, so no amount
of fuel produces an answer — every `==` on point classifications, including
the ones inside `split_bsp_polygon`, overflows the stack instead of
returning variant equality. -/
theorem eq_PointPlaneSide_diverges (n : Nat) (a b : PointPlaneSide) :
    pointPlaneSideEqFuel n a b = none := by
  induction n with
  | zero => rfl
  | succ n ih => exact ih

/-- C2: `intersect_segment_plane` has no guard for a near-zero denominator:
with denominator `2 ^ (-30)` — nonzero but far below even the plane
thickness `1e-6` — and a segment nearly parallel to the plane, it still
returns `Some(lerp(a,b,1/2))` rather than the absent value the claim
requires.  All quantities at this input are dyadic and exactly
representable, so the `f64` program computes the same `t = 1/2` and the
same point. -/
theorem intersect_near_parallel_returns_some :
    intersect_segment_plane ⟨0, 0, 0⟩ ⟨1, 0, 1 / 2 ^ 30⟩
        ⟨⟨0, 0, 1⟩, 1 / 2 ^ 31⟩ = some ⟨1 / 2, 0, 1 / 2 ^ 31⟩ ∧
      (Vec3.dot ⟨0, 0, 1⟩ (Vec3.sub ⟨1, 0, 1 / 2 ^ 30⟩ ⟨0, 0, 0⟩)
          = 1 / 2 ^ 30 ∧
        (0 : ℚ) < 1 / 2 ^ 30 ∧ (1 : ℚ) / 2 ^ 30 < PLANE_THICKNESS_EPS) := by
  refine ⟨?_, by norm_num [Vec3.dot, Vec3.sub, PLANE_THICKNESS_EPS]⟩
  norm_num [intersect_segment_plane, Vec3.dot, Vec3.sub, Vec3.lerp]

/-- C3: no polygon fragment of any size is ever dropped before, or passed
into, the next recursive build call, because the program as written never
produces fragments at all — on a polygon the builder classifies
`SPANNING`, `split_bsp_polygon` evaluates its first `==` comparison, which
never returns, so the split and the whole partition are `none` for every
budget.  The filtering of sub-triangular fragments the claim describes
cannot happen in the program as written. -/
theorem spanning_split_never_yields_fragments (eqFuel : Nat) :
    classify_polygon_by_plane zPlane spanTri = PolygonPlaneSide.SPANNING ∧
    split_bsp_polygon eqFuel zPlane spanTri = none ∧
    bsp_partition eqFuel zPlane [spanTri] = none := by
  have hclass : classify_polygon_by_plane zPlane spanTri =
      PolygonPlaneSide.SPANNING := classify_go_span_verts
  exact ⟨hclass, split_bsp_polygon_eq_none eqFuel zPlane spanTri,
    by simp [bsp_partition, hclass, split_bsp_polygon_eq_none]⟩

/-- C4: `split_bsp_polygon` never returns a pair of fragments: for every
fuel budget and every input it is `none` — on an empty vertex ring the
initial `points[points.len() - 1]` read panics, and on a non-empty ring
the loop's first `==` comparison (the divergent hand-written `eq`) never
returns.  There are no front/back fragments whose reclassification the
claim could describe. -/
theorem split_bsp_polygon_never_returns (eqFuel : Nat) (sp : BSPPlane)
    (poly : BSPPolygon) : split_bsp_polygon eqFuel sp poly = none :=
  split_bsp_polygon_eq_none eqFuel sp poly

/-- C5 (counterexample): the traversal's branch test is not the sign test
of `classify_point_to_plane`.  For the viewer `(0, 0, 1/2000000)`, inside
the tolerance slab of the plane `z = 0`, `classify_point_to_plane` answers
`COPLANAR` (not `FRONT`), yet `render_bsp` takes the front-subtree-first
branch (the front subtree's two leaf events come before the back leaf). -/
theorem render_front_first_inside_slab :
    render_bsp
        (BSPNode.Node ⟨⟨0, 0, 1⟩, 0⟩
          (BSPNode.Node ⟨⟨0, 0, 1⟩, 0⟩ BSPNode.Leaf BSPNode.Leaf [])
          BSPNode.Leaf [])
        ⟨0, 0, 1 / 2000000⟩ =
      [VisitEvent.node, VisitEvent.node, VisitEvent.leaf, VisitEvent.leaf,
        VisitEvent.leaf] ∧
    classify_point_to_plane ⟨⟨0, 0, 1⟩, 0⟩ ⟨0, 0, 1 / 2000000⟩ ≠
      PointPlaneSide.FRONT := by
  constructor
  · norm_num [render_bsp, Vec3.dot]
  · have h : classify_point_to_plane ⟨⟨0, 0, 1⟩, 0⟩ ⟨0, 0, 1 / 2000000⟩ =
        PointPlaneSide.COPLANAR := by
      norm_num [classify_point_to_plane, Vec3.dot, PLANE_THICKNESS_EPS]
    rw [h]
    exact fun hc => by cases hc

/-- C5 (amended): at an internal node the traversal uses the raw sign test
`dot(n,viewer) > d` — with no epsilon, unlike `classify_point_to_plane` —
recursing front-subtree-first when it holds and back-subtree-first
otherwise, after emitting the node event; on a `Leaf` it emits the leaf
event and performs no recursion. -/
theorem render_bsp_order (plane : BSPPlane) (fr bk : BSPNode)
    (polys : List BSPPolygon) (viewer : Vec3) :
    render_bsp (BSPNode.Node plane fr bk polys) viewer =
      VisitEvent.node ::
        (if plane.n.dot viewer > plane.d then
          render_bsp fr viewer ++ render_bsp bk viewer
        else
          render_bsp bk viewer ++ render_bsp fr viewer) ∧
    render_bsp BSPNode.Leaf viewer = [VisitEvent.leaf] :=
  ⟨rfl, rfl⟩

/-- C6: the builder is not total on non-empty collections satisfying the
tolerance-slab precondition.  `[slabTri, perpTri]` satisfies `AllSlab`
(each triangle lies exactly in its own cached plane), yet `perpTri`
classifies `SPANNING` against the head polygon's plane, so the partition
reaches `split_bsp_polygon`, whose first `==` comparison never returns:
`build_bsp_node_fuel` is `none` for every fuel budget. -/
theorem build_diverges_on_spanning_input (fuel : Nat) :
    AllSlab [slabTri, perpTri] ∧
    classify_polygon_by_plane slabTri.plane perpTri =
      PolygonPlaneSide.SPANNING ∧
    build_bsp_node_fuel fuel [slabTri, perpTri] = none := by
  refine ⟨?_, ?_, ?_⟩
  · intro q hq v hv
    simp only [List.mem_cons, List.not_mem_nil, or_false] at hq
    rcases hq with rfl | rfl <;>
      simp only [slabTri, perpTri, zPlane] at hv ⊢ <;>
      simp only [List.mem_cons, List.not_mem_nil, or_false] at hv <;>
      rcases hv with rfl | rfl | rfl <;>
      norm_num [SlabOK, Vec3.dot, PLANE_THICKNESS_EPS]
  · exact classify_go_span_verts
  · have hclass : classify_polygon_by_plane zPlane perpTri =
        PolygonPlaneSide.SPANNING := classify_go_span_verts
    cases fuel with
    | zero => rfl
    | succ n =>
        simp [build_bsp_node_fuel, bsp_partition, slabTri, hclass,
          split_bsp_polygon_eq_none]

/-- C7 (counterexample): traversing a `Leaf` does not make zero visit
events — `render_bsp` emits exactly one `leaf` event (the `println!` in the
`Leaf` arm). -/
theorem render_leaf_emits_one_event :
    (render_bsp BSPNode.Leaf ⟨0, 0, 0⟩).length = 1 ∧
      render_bsp BSPNode.Leaf ⟨0, 0, 0⟩ ≠ [] := by
  exact ⟨rfl, by simp [render_bsp]⟩

/-- C7 (amended): building from the empty polygon collection succeeds with
any fuel budget and yields `Leaf` (valid input, not an error), and
traversing a `Leaf` emits exactly the single leaf event — it recurses into
no subtree and emits no node event. -/
theorem build_empty_leaf_render_leaf (fuel : Nat) (v : Vec3) :
    build_bsp_node_fuel (fuel + 1) [] = some BSPNode.Leaf ∧
    render_bsp BSPNode.Leaf v = [VisitEvent.leaf] :=
  ⟨rfl, rfl⟩

/-- C8: with `signed = dot(n,p) - d` and `ε = PLANE_THICKNESS_EPS = 1e-6`,
`classify_point_to_plane` answers `FRONT` exactly when `signed > ε`,
`BACK` exactly when `signed < -ε`, and `COPLANAR` exactly when
`|signed| ≤ ε` — every point within `ε` of the plane is `COPLANAR`. -/
theorem classify_point_characterization (plane : BSPPlane) (p : Vec3) :
    (classify_point_to_plane plane p = PointPlaneSide.FRONT ↔
      plane.n.dot p - plane.d > PLANE_THICKNESS_EPS) ∧
    (classify_point_to_plane plane p = PointPlaneSide.BACK ↔
      plane.n.dot p - plane.d < -PLANE_THICKNESS_EPS) ∧
    (classify_point_to_plane plane p = PointPlaneSide.COPLANAR ↔
      |plane.n.dot p - plane.d| ≤ PLANE_THICKNESS_EPS) := by
  have heps : (0 : ℚ) < PLANE_THICKNESS_EPS := by norm_num [PLANE_THICKNESS_EPS]
  simp only [classify_point_to_plane]
  split_ifs with h1 h2
  · exact ⟨iff_of_true rfl h1,
      iff_of_false (by simp) (by linarith),
      iff_of_false (by simp)
        (fun hc => absurd (abs_le.mp hc).2 (not_le.mpr h1))⟩
  · exact ⟨iff_of_false (by simp) h1,
      iff_of_true rfl h2,
      iff_of_false (by simp)
        (fun hc => absurd (abs_le.mp hc).1 (not_le.mpr h2))⟩
  · exact ⟨iff_of_false (by simp) h1,
      iff_of_false (by simp) h2,
      iff_of_true rfl (abs_le.mpr ⟨by linarith, by linarith⟩)⟩

/-- C9: `split_bsp_polygon` never returns fragments whose cached plane
could be inspected: even on the non-empty one-vertex polygon it is `none`
for every fuel budget, because the loop's first `==` comparison never
returns.  (The unreachable construction at the end of the source loop does
copy `polygon.plane` into both fragments, but the program as written never
reaches it.) -/
theorem split_returns_no_fragments_to_inherit (eqFuel : Nat) :
    oneVertPoly.vertices ≠ [] ∧
    split_bsp_polygon eqFuel zPlane oneVertPoly = none :=
  ⟨by simp [oneVertPoly], split_bsp_polygon_eq_none eqFuel zPlane oneVertPoly⟩

/-- C10: `bsp_polygon_by_vertices` succeeds (all of `vertices[0]`,
`vertices[1]`, `vertices[2]` in bounds) exactly when the vertex list has at
least three elements, and the read `points[points.len() - 1]` — the first
operation of `split_bsp_polygon`, executed before the divergent loop — is
in bounds exactly when the polygon's vertex list is non-empty. -/
theorem vertex_access_bounds (sqrt : ℚ → ℚ) (vs : List Vec3)
    (poly : BSPPolygon) :
    ((bsp_polygon_by_vertices sqrt vs).isSome ↔ 3 ≤ vs.length) ∧
    ((split_last_vertex_access poly).isSome ↔ poly.vertices ≠ []) := by
  constructor
  · unfold bsp_polygon_by_vertices
    rcases vs with _ | ⟨a, _ | ⟨b, _ | ⟨c, t⟩⟩⟩ <;> simp
  · unfold split_last_vertex_access
    rcases h : poly.vertices with _ | ⟨p, ps⟩ <;> simp [h]

end RustBsp
